import Mathlib

/-!
Americano: the beacon-seeking robot controller (`src/core.c`, `src/core.h`).

A shallow embedding of the finite-state controller and of its sensor and
actuation helpers, followed by the properties proved about it.

Modelling conventions:

* C `int` values are `Int`.  The arithmetic on sensor readings (which lie in
  `[-500, 500]`) and on the constants never leaves the 32-bit range and is
  written as such.  The two operations applied to an arbitrary argument, the
  negation of a power level and the product of a duration by 1000, are reduced
  to 32 bits by `wrapInt`, and the argument of `usleep` is converted to the
  unsigned 32-bit type by `toUseconds`.
* The outside world is an explicit `World` value: the sequence of results of
  `rand()`, the sequence of results of `getchar()`, and the list of effects
  performed so far (motor commands, sleeps, diagnostic lines, sensor reads).
* A function of the source that reads or writes the world is a function
  `World → α × World` (`Cmd α`); a function taking the context pointer `ctx`
  takes a `RobotContext_t` and returns the updated one.
* The two unbounded loops (`waitForStartButton`, `startStateMachine`) take a
  fuel argument and return `none` when the fuel runs out.
* `checkForCollisions` is a stub returning `false` in the source.  The loop
  body is embedded with the value returned by that call as a parameter, so
  the override logic is verified for both outcomes, the stub's included.
-/

namespace Americano

/-! ## Constants (`core.c` lines 7-23) -/

def FAKE_SENSOR_VAL : Int := 50
def MOTOR_OFFSET_RIGHT : Int := 0
def MOTOR_OFFSET_LEFT : Int := 0

def POWER_LEVEL_LOW : Int := 30
def POWER_LEVEL_MED : Int := 50
def POWER_LEVEL_HIGH : Int := 70
def SEND_IT : Int := 100

def IR_THRESHOLD_STRAIGHT : Int := 50
def IR_THRESHOLD_HAS_SIGNAL : Int := 200
def MIN_FREE_FORWARD_SPACE : Int := 50

def MOVE_TIME_SEARCH : Int := 1000

def POWER_LEVEL_APPROACH : Int := 20
def MOVE_TIME_APPROACH : Int := 500

/-! ## Data model -/

/-- The enumeration `RobotState_t` of `core.h`. -/
inductive RobotState_t where
  | IDLE
  | SEARCHING
  | ALIGNMENT
  | DROP_OBJECT
  | COMPLETE
  | COLLISION
  deriving DecidableEq, Repr

/-- The enumeration `RobotCorrection_t` of `core.c`. -/
inductive RobotCorrection_t where
  | MOVE_STRAIGHT
  | MOVE_RIGHT
  | MOVE_LEFT
  deriving DecidableEq, Repr

open RobotState_t RobotCorrection_t

/-- The structure `RobotContext_t` of `core.c`. -/
structure RobotContext_t where
  state : RobotState_t
  prevState : RobotState_t
  deriving DecidableEq, Repr

/-- An effect performed on the outside world. -/
inductive Event where
  /-- The command `setMotor(motorNumber, powerLevel)`. -/
  | motor (motorNumber powerLevel : Int)
  /-- The call `usleep(usec)`, `usec` being the unsigned value received. -/
  | sleep (usec : Int)
  /-- The line printed by `readSensor` for the value `val` of `sensorName`. -/
  | sensor (sensorName : String) (val : Int)
  /-- Any other diagnostic line written to standard output. -/
  | print (line : String)
  deriving DecidableEq, Repr

/-- The outside world of the controller. -/
structure World where
  /-- Successive results of `rand()`; they are never negative. -/
  randSeq : Nat → Nat
  /-- Number of calls of `rand()` made so far. -/
  randPos : Nat
  /-- Successive results of `getchar()`; `none` is `EOF`. -/
  stdin : Nat → Option Char
  /-- Number of calls of `getchar()` made so far. -/
  stdinPos : Nat
  /-- Effects performed so far, oldest first. -/
  trace : List Event

/-- A command of the program: it returns a value and the world it leaves. -/
def Cmd (α : Type) : Type := World → α × World

instance : Monad Cmd where
  pure a := fun w => (a, w)
  bind m f := fun w => f (m w).1 (m w).2

/-- Append one effect to the trace. -/
def emit (e : Event) : Cmd Unit :=
  fun w => ((), { w with trace := w.trace ++ [e] })

/-- The library call `rand()`. -/
def rand : Cmd Int :=
  fun w => ((w.randSeq w.randPos : Int), { w with randPos := w.randPos + 1 })

/-- The library call `getchar()`. -/
def getchar : Cmd (Option Char) :=
  fun w => (w.stdin w.stdinPos, { w with stdinPos := w.stdinPos + 1 })

/-- The library call `usleep(usec)`. -/
def usleep (usec : Int) : Cmd Unit :=
  emit (Event.sleep usec)

/-- The library call `printf` of a diagnostic line. -/
def printf (line : String) : Cmd Unit :=
  emit (Event.print line)

/-! ## Sensors (`core.c` lines 33-91) -/

/-- The arithmetic of `randomIntInRange` on the raw value `r` returned by
`rand()`: `r % (upper + 1 - lower) + lower`, `%` being the truncating
remainder of C. -/
def randomIntInRangeOf (r upper lower : Int) : Int :=
  Int.tmod r (upper + 1 - lower) + lower

/-- `randomIntInRange` (lines 33-35). -/
def randomIntInRange (upper lower : Int) : Cmd Int := do
  let r ← rand
  pure (randomIntInRangeOf r upper lower)

/-- The value a C `int` (32 bits, two's complement) holds when the exact
result of an operation is `x`: `x` itself when `INT_MIN ≤ x ≤ INT_MAX`, and `x`
reduced modulo `2^32` into that range otherwise. -/
def wrapInt (x : Int) : Int :=
  (x + 2147483648) % 4294967296 - 2147483648

/-- The conversion of a C `int` to `useconds_t`, the unsigned 32-bit type of
the argument of `usleep`: reduction modulo `2^32`. -/
def toUseconds (x : Int) : Int :=
  x % 4294967296

/-- `waitMs` (line 37): the product is computed in `int` and passed to
`usleep` as an unsigned value. -/
def waitMs (waitTimeMs : Int) : Cmd Unit :=
  usleep (toUseconds (wrapInt (waitTimeMs * 1000)))

/-- `stateToString` (lines 39-56). -/
def stateToString : RobotState_t → String
  | IDLE => "IDLE"
  | SEARCHING => "SEARCHING"
  | ALIGNMENT => "ALIGNMENT"
  | DROP_OBJECT => "DROP_OBJECT"
  | COMPLETE => "COMPLETE"
  | COLLISION => "COLLISION"

/-- `setMotor` (lines 58-60). -/
def setMotor (motorNumber powerLevel : Int) : Cmd Unit :=
  emit (Event.motor motorNumber powerLevel)

/-- `readSensor` (lines 62-67). -/
def readSensor (sensorName : String) : Cmd Int := do
  let val ← randomIntInRange 500 (-500)
  emit (Event.sensor sensorName val)
  pure val

/-- `readIrRight` (line 69). -/
def readIrRight : Cmd Int := readSensor "Photo Transistor Right"

/-- `readIrLeft` (line 71). -/
def readIrLeft : Cmd Int := readSensor "Photo Transistor Left"

/-- The decision of `readIrDirection` (lines 78-88) on the two readings. -/
def irCorrection (irLeft irRight : Int) : RobotCorrection_t :=
  let irDiff := irLeft - irRight
  let diffInRange : Bool := irDiff < IR_THRESHOLD_STRAIGHT
  let hasRightSignal : Bool := irRight > IR_THRESHOLD_HAS_SIGNAL
  let hasLeftSignal : Bool := irLeft > IR_THRESHOLD_HAS_SIGNAL
  if diffInRange && hasRightSignal && hasLeftSignal then MOVE_STRAIGHT
  else if irDiff < 0 then MOVE_RIGHT
  else MOVE_LEFT

/-- `readIrDirection` (lines 73-89): the right sensor is read first. -/
def readIrDirection : Cmd RobotCorrection_t := do
  let irRight ← readIrRight
  let irLeft ← readIrLeft
  pure (irCorrection irLeft irRight)

/-- `readForwardDistance` (line 91). -/
def readForwardDistance : Cmd Int := readSensor "Sonic Distance Sensor"

/-- `sonicSensorCorrection` (line 94), an empty body. -/
def sonicSensorCorrection : Cmd Unit := pure ()

/-- `dropObject` (line 96). -/
def dropObject : Cmd Unit := printf "Dropping object...\n"

/-! ## Actuation (`core.c` lines 98-121) -/

/-- `controlDriveMotors` (lines 98-103). -/
def controlDriveMotors (powerLevelLeft powerLevelRight : Int) : Cmd Unit := do
  setMotor 1 (powerLevelLeft + MOTOR_OFFSET_LEFT)
  setMotor 2 (powerLevelRight + MOTOR_OFFSET_RIGHT)

/-- `driveStraight` (lines 105-109). -/
def driveStraight (powerLevel time : Int) : Cmd Unit := do
  controlDriveMotors powerLevel powerLevel
  waitMs time
  controlDriveMotors 0 0

/-- `turnRight` (lines 111-115): the negation is computed in `int`. -/
def turnRight (powerLevel time : Int) : Cmd Unit := do
  controlDriveMotors powerLevel (wrapInt (-powerLevel))
  waitMs time
  controlDriveMotors 0 0

/-- `turnLeft` (lines 117-121): the negation is computed in `int`. -/
def turnLeft (powerLevel time : Int) : Cmd Unit := do
  controlDriveMotors (wrapInt (-powerLevel)) powerLevel
  waitMs time
  controlDriveMotors 0 0

/-! ## Collision monitor and start button (`core.c` lines 123-134) -/

/-- `checkForCollisions` (line 124), a stub. -/
def checkForCollisions : Bool := false

/-- `waitForStartButton` (lines 126-134): `fuel` bounds the number of
characters read; `none` when the fuel runs out before an `n` is read. -/
def waitForStartButton : Nat → World → Option World
  | 0, _ => none
  | fuel + 1, w =>
    let r := getchar w
    if r.1 = some 'n' then some r.2 else waitForStartButton fuel r.2

/-! ## State handlers (`core.c` lines 136-226) -/

/-- `handleIdle` (lines 136-142). -/
def handleIdle (fuel : Nat) (ctx : RobotContext_t) (w : World) :
    Option (RobotContext_t × World) :=
  match waitForStartButton fuel w with
  | none => none
  | some w1 => some ({ ctx with state := SEARCHING }, w1)

/-- `shouldLeaveSearching` (line 144). -/
def shouldLeaveSearching : Bool := true

/-- `handleSearching` (lines 168-188). -/
def handleSearching (ctx : RobotContext_t) : Cmd RobotContext_t := do
  let d ← readForwardDistance
  if d < MIN_FREE_FORWARD_SPACE then
    sonicSensorCorrection
  let move ← readIrDirection
  match move with
  | MOVE_STRAIGHT => driveStraight POWER_LEVEL_MED MOVE_TIME_SEARCH
  | MOVE_RIGHT => turnRight POWER_LEVEL_LOW MOVE_TIME_SEARCH
  | MOVE_LEFT => turnLeft POWER_LEVEL_LOW MOVE_TIME_SEARCH
  if shouldLeaveSearching then
    pure { ctx with state := ALIGNMENT }
  else
    pure ctx

/-- `handleAlignment` (lines 197-207). -/
def handleAlignment (ctx : RobotContext_t) : Cmd RobotContext_t := do
  let move ← readIrDirection
  if move ≠ MOVE_STRAIGHT then
    pure { ctx with state := SEARCHING }
  else
    pure ctx

/-- `handleDrop` (lines 209-213). -/
def handleDrop (ctx : RobotContext_t) : Cmd RobotContext_t := do
  dropObject
  waitMs 1000
  driveStraight (-POWER_LEVEL_MED) 2000
  pure ctx

/-- `handleComplete` (line 215). -/
def handleComplete (ctx : RobotContext_t) : Cmd RobotContext_t := do
  printf "Done!\n"
  pure ctx

/-- `handleCollision` (lines 217-226). -/
def handleCollision (ctx : RobotContext_t) : RobotContext_t :=
  if ctx.prevState = ALIGNMENT then
    { ctx with state := SEARCHING }
  else
    { ctx with state := ctx.prevState }

/-! ## The controller (`core.c` lines 228-280) -/

/-- Lines 235-239 of `startStateMachine`: the backup of the state and the
collision override, `collision` being the value returned by the call
`checkForCollisions()`.  The result is the context the `switch` dispatches
on. -/
def collisionOverride (collision : Bool) (ctx : RobotContext_t) : RobotContext_t :=
  let ctx1 := { ctx with prevState := ctx.state }
  let inCollisionState : Bool := ctx1.state = COLLISION
  if collision && !inCollisionState then
    { ctx1 with state := COLLISION }
  else
    ctx1

/-- Lines 240-259 of `startStateMachine`: the `switch` on `ctx->state`. -/
def dispatch (fuel : Nat) (ctx : RobotContext_t) (w : World) :
    Option (RobotContext_t × World) :=
  match ctx.state with
  | IDLE => handleIdle fuel ctx w
  | SEARCHING => some (handleSearching ctx w)
  | ALIGNMENT => some (handleAlignment ctx w)
  | DROP_OBJECT => some (handleDrop ctx w)
  | COMPLETE => some (handleComplete ctx w)
  | COLLISION => some (handleCollision ctx, w)

/-- One iteration of the loop of `startStateMachine` (lines 231-259), the
call `checkForCollisions()` returning `collision`. -/
def cycle (collision : Bool) (fuel : Nat) (ctx : RobotContext_t) (w : World) :
    Option (RobotContext_t × World) :=
  let w1 := (printf ("Current state " ++ stateToString ctx.state ++ "\n") w).2
  dispatch fuel (collisionOverride collision ctx) w1

/-- The first `cycles` iterations of the loop of `startStateMachine`
(lines 228-261); `monitor i` is the value returned by `checkForCollisions()`
in iteration `i`. -/
def runCycles (monitor : Nat → Bool) (fuel : Nat) :
    Nat → RobotContext_t → World → Option (RobotContext_t × World)
  | 0, ctx, w => some (ctx, w)
  | cycles + 1, ctx, w =>
    match runCycles monitor fuel cycles ctx w with
    | none => none
    | some r => cycle (monitor cycles) fuel r.1 r.2

/-- `startStateMachine` (lines 228-261) as written, the monitor being the
stub `checkForCollisions`. -/
def startStateMachine (fuel cycles : Nat) (ctx : RobotContext_t) (w : World) :
    Option (RobotContext_t × World) :=
  runCycles (fun _ => checkForCollisions) fuel cycles ctx w

/-- `core` (lines 272-280): the initial context is zero-initialised apart
from `state`, and `IDLE` is the zero of the enumeration. -/
def core (fuel cycles : Nat) (w : World) : Option (RobotContext_t × World) :=
  startStateMachine fuel cycles { state := IDLE, prevState := IDLE } w

/-! ## Observations on traces and reference rules -/

/-- The motor commands of a trace, oldest first, as pairs of motor number and
power level. -/
def motorCommands (trace : List Event) : List (Int × Int) :=
  trace.filterMap fun e =>
    match e with
    | Event.motor motorNumber powerLevel => some (motorNumber, powerLevel)
    | _ => none

/-- The power level of the last command sent to motor `motorNumber` in a
trace, `none` when the trace holds no command for that motor. -/
def lastMotor (motorNumber : Int) (trace : List Event) : Option Int :=
  trace.foldl
    (fun acc e =>
      match e with
      | Event.motor m powerLevel => if m = motorNumber then some powerLevel else acc
      | _ => acc)
    none

/-- The wheels as a state pair (left, right): the effect of one event. Motor 1
is the left wheel and motor 2 the right wheel. -/
def wheelStep (wheels : Int × Int) : Event → Int × Int
  | Event.motor m powerLevel =>
    if m = 1 then (powerLevel, wheels.2)
    else if m = 2 then (wheels.1, powerLevel)
    else wheels
  | _ => wheels

/-- The wheel powers after a trace, starting from the powers `init`. -/
def wheelPowers (init : Int × Int) (trace : List Event) : Int × Int :=
  trace.foldl wheelStep init

/-- The decision rule of the specification for the bearing readings: with
`diff = left - right`, STRAIGHT when `diff < 50` and both readings exceed 200,
else TURN_RIGHT when `diff < 0`, else TURN_LEFT. -/
def bearingRule (left right : Int) : RobotCorrection_t :=
  let diff := left - right
  if diff < 50 ∧ left > 200 ∧ right > 200 then MOVE_STRAIGHT
  else if diff < 0 then MOVE_RIGHT
  else MOVE_LEFT

/-- The actuation primitive `handleSearching` runs for a correction (the
`switch` of lines 174-184). -/
def searchMove : RobotCorrection_t → Cmd Unit
  | MOVE_STRAIGHT => driveStraight POWER_LEVEL_MED MOVE_TIME_SEARCH
  | MOVE_RIGHT => turnRight POWER_LEVEL_LOW MOVE_TIME_SEARCH
  | MOVE_LEFT => turnLeft POWER_LEVEL_LOW MOVE_TIME_SEARCH

/-- A world whose `rand()` yields `r` at every call and whose standard input
is `input` followed by end of file; nothing has happened yet. -/
def constWorld (r : Nat) (input : List Char) : World :=
  { randSeq := fun _ => r
    randPos := 0
    stdin := fun i => input.get? i
    stdinPos := 0
    trace := [] }

/-- A world whose successive calls of `rand()` yield the values of `rs` (and 0
once `rs` is exhausted) and whose standard input is `input` followed by end of
file; nothing has happened yet. -/
def seqWorld (rs : List Nat) (input : List Char) : World :=
  { randSeq := fun i => rs.getD i 0
    randPos := 0
    stdin := fun i => input.get? i
    stdinPos := 0
    trace := [] }

/-- The context `core` builds (line 277): `state` is IDLE and `prevState`,
zero-initialised, is IDLE too. -/
def coreContext : RobotContext_t := { state := IDLE, prevState := IDLE }

/-- The states the controller is found in at the end of a cycle when started
by `core`. -/
def searchPhase (s : RobotState_t) : Prop := s = IDLE ∨ s = SEARCHING ∨ s = ALIGNMENT

instance (s : RobotState_t) : Decidable (searchPhase s) := by
  unfold searchPhase
  infer_instance

/-- The motor commands the specification attaches to a correction in
SEARCHING, as pairs of motor number and power: forward at 50, or a turn at 30,
followed by the stop. -/
def searchCommands : RobotCorrection_t → List (Int × Int)
  | MOVE_STRAIGHT => [(1, 50), (2, 50), (1, 0), (2, 0)]
  | MOVE_RIGHT => [(1, 30), (2, -30), (1, 0), (2, 0)]
  | MOVE_LEFT => [(1, -30), (2, 30), (1, 0), (2, 0)]

/-- The reading a sensor returns for the raw value `r` of `rand()`. -/
def sensorValue (r : Nat) : Int := randomIntInRangeOf (r : Int) 500 (-500)

/-! ## Running commands -/

theorem bind_run {α β : Type} (m : Cmd α) (f : α → Cmd β) (w : World) :
    (m >>= f) w = f (m w).1 (m w).2 := rfl

theorem pure_run {α : Type} (a : α) (w : World) : (pure a : Cmd α) w = (a, w) := rfl

theorem wrapInt_of_range (x : Int) (hlo : -2147483648 ≤ x) (hhi : x ≤ 2147483647) :
    wrapInt x = x := by
  unfold wrapInt
  rw [Int.emod_eq_of_lt (by omega) (by omega)]
  omega

theorem toUseconds_of_nonneg (x : Int) (hlo : 0 ≤ x) (hhi : x ≤ 2147483647) :
    toUseconds x = x := by
  unfold toUseconds
  exact Int.emod_eq_of_lt hlo (by omega)

theorem emit_run (e : Event) (w : World) :
    emit e w = ((), { w with trace := w.trace ++ [e] }) := rfl

theorem readSensor_run (sensorName : String) (w : World) :
    readSensor sensorName w =
      (sensorValue (w.randSeq w.randPos),
        { w with
          randPos := w.randPos + 1
          trace := w.trace ++ [Event.sensor sensorName (sensorValue (w.randSeq w.randPos))] }) :=
  rfl

theorem readIrDirection_run (w : World) :
    readIrDirection w =
      (irCorrection (sensorValue (w.randSeq (w.randPos + 1))) (sensorValue (w.randSeq w.randPos)),
        { w with
          randPos := w.randPos + 2
          trace := w.trace ++
            [Event.sensor "Photo Transistor Right" (sensorValue (w.randSeq w.randPos)),
             Event.sensor "Photo Transistor Left" (sensorValue (w.randSeq (w.randPos + 1)))] }) := by
  simp [readIrDirection, readIrRight, readIrLeft, bind_run, pure_run, readSensor_run]

theorem controlDriveMotors_run (powerLevelLeft powerLevelRight : Int) (w : World) :
    controlDriveMotors powerLevelLeft powerLevelRight w =
      ((), { w with
        trace := w.trace ++ [Event.motor 1 powerLevelLeft, Event.motor 2 powerLevelRight] }) := by
  simp [controlDriveMotors, setMotor, bind_run, emit_run, MOTOR_OFFSET_LEFT, MOTOR_OFFSET_RIGHT]

theorem waitMs_run (waitTimeMs : Int) (w : World) :
    waitMs waitTimeMs w
      = ((), { w with
          trace := w.trace ++ [Event.sleep (toUseconds (wrapInt (waitTimeMs * 1000)))] }) :=
  rfl

theorem driveStraight_run (powerLevel time : Int) (w : World) :
    driveStraight powerLevel time w =
      ((), { w with
        trace := w.trace ++
          [Event.motor 1 powerLevel, Event.motor 2 powerLevel,
           Event.sleep (toUseconds (wrapInt (time * 1000))),
           Event.motor 1 0, Event.motor 2 0] }) := by
  simp [driveStraight, bind_run, controlDriveMotors_run, waitMs_run]

theorem turnRight_run (powerLevel time : Int) (w : World) :
    turnRight powerLevel time w =
      ((), { w with
        trace := w.trace ++
          [Event.motor 1 powerLevel, Event.motor 2 (wrapInt (-powerLevel)),
           Event.sleep (toUseconds (wrapInt (time * 1000))),
           Event.motor 1 0, Event.motor 2 0] }) := by
  simp [turnRight, bind_run, controlDriveMotors_run, waitMs_run]

theorem turnLeft_run (powerLevel time : Int) (w : World) :
    turnLeft powerLevel time w =
      ((), { w with
        trace := w.trace ++
          [Event.motor 1 (wrapInt (-powerLevel)), Event.motor 2 powerLevel,
           Event.sleep (toUseconds (wrapInt (time * 1000))),
           Event.motor 1 0, Event.motor 2 0] }) := by
  simp [turnLeft, bind_run, controlDriveMotors_run, waitMs_run]

theorem handleSearching_run (ctx : RobotContext_t) (w : World) :
    handleSearching ctx w =
      ({ ctx with state := ALIGNMENT },
        (searchMove (readIrDirection (readForwardDistance w).2).1
          (readIrDirection (readForwardDistance w).2).2).2) := by
  unfold handleSearching
  simp only [bind_run]
  by_cases h : (readForwardDistance w).1 < MIN_FREE_FORWARD_SPACE
  · simp only [h, if_true, if_false, sonicSensorCorrection, pure_run, bind_run,
      shouldLeaveSearching]
    rcases hm : (readIrDirection (readForwardDistance w).2).1 <;>
      simp only [hm, searchMove, bind_run, pure_run]
  · simp only [h, if_true, if_false, sonicSensorCorrection, pure_run, bind_run,
      shouldLeaveSearching]
    rcases hm : (readIrDirection (readForwardDistance w).2).1 <;>
      simp only [hm, searchMove, bind_run, pure_run]

theorem handleAlignment_run (ctx : RobotContext_t) (w : World) :
    handleAlignment ctx w =
      (if (readIrDirection w).1 ≠ MOVE_STRAIGHT then { ctx with state := SEARCHING } else ctx,
        (readIrDirection w).2) := by
  unfold handleAlignment
  simp only [bind_run]
  split <;> rfl

theorem handleDrop_run (ctx : RobotContext_t) (w : World) :
    handleDrop ctx w =
      (ctx, { w with
        trace := w.trace ++
          [Event.print "Dropping object...\n", Event.sleep (1000 * 1000),
           Event.motor 1 (-POWER_LEVEL_MED), Event.motor 2 (-POWER_LEVEL_MED),
           Event.sleep (2000 * 1000), Event.motor 1 0, Event.motor 2 0] }) := by
  simp [handleDrop, dropObject, printf, bind_run, pure_run, emit_run, waitMs_run,
    driveStraight_run, wrapInt, toUseconds]

theorem handleComplete_run (ctx : RobotContext_t) (w : World) :
    handleComplete ctx w = (ctx, { w with trace := w.trace ++ [Event.print "Done!\n"] }) :=
  rfl

theorem waitForStartButton_first (k : Nat) : ∀ (fuel : Nat) (w : World),
    (∀ i, i < k → w.stdin (w.stdinPos + i) ≠ some 'n') →
    w.stdin (w.stdinPos + k) = some 'n' → k < fuel →
    waitForStartButton fuel w = some { w with stdinPos := w.stdinPos + k + 1 } := by
  induction k with
  | zero =>
    intro fuel w _ hk hf
    obtain ⟨f, rfl⟩ : ∃ f, fuel = f + 1 := ⟨fuel - 1, by omega⟩
    have hk0 : w.stdin w.stdinPos = some 'n' := by simpa using hk
    simp [waitForStartButton, getchar, hk0]
  | succ k ih =>
    intro fuel w hlt hk hf
    obtain ⟨f, rfl⟩ : ∃ f, fuel = f + 1 := ⟨fuel - 1, by omega⟩
    have h0 : w.stdin w.stdinPos ≠ some 'n' := by simpa using hlt 0 (by omega)
    have hrec := ih f { w with stdinPos := w.stdinPos + 1 }
      (fun i hi => by simpa [Nat.add_assoc, Nat.add_comm 1 i] using hlt (i + 1) (by omega))
      (by simpa [Nat.add_assoc, Nat.add_comm 1 k] using hk) (by omega)
    simp only [waitForStartButton, getchar, h0, if_false]
    rw [hrec]
    simp [Nat.add_assoc, Nat.add_comm 1 k]

/-! ## Bearing decision -/

theorem irCorrection_eq_bearingRule (left right : Int) :
    irCorrection left right = bearingRule left right := by
  simp only [irCorrection, bearingRule, IR_THRESHOLD_STRAIGHT, IR_THRESHOLD_HAS_SIGNAL,
    Bool.and_eq_true, decide_eq_true_eq]
  by_cases hd : left - right < 50 <;> by_cases hr : right > 200 <;>
    by_cases hl : left > 200 <;> simp [hd, hr, hl]

/-- C1: `readIrDirection` follows the decision rule of the specification. On
every pair of readings (left, right) its decision is `bearingRule`: STRAIGHT
when `left - right < 50`, `left > 200` and `right > 200`, else TURN_RIGHT when
`left - right < 0`, else TURN_LEFT; and in every world the value it returns is
that rule applied to the reading of the left sensor and the reading of the
right sensor. In particular, when the straight condition is unmet the result
is MOVE_RIGHT for `left - right < 0` and MOVE_LEFT for `left - right ≥ 0`. -/
theorem readIrDirection_decision_rule (w : World) (left right : Int) :
    irCorrection left right = bearingRule left right ∧
    (readIrDirection w).1
      = bearingRule (readIrLeft (readIrRight w).2).1 (readIrRight w).1 ∧
    (¬(left - right < 50 ∧ left > 200 ∧ right > 200) → left - right < 0 →
      irCorrection left right = MOVE_RIGHT) ∧
    (¬(left - right < 50 ∧ left > 200 ∧ right > 200) → left - right ≥ 0 →
      irCorrection left right = MOVE_LEFT) := by
  refine ⟨irCorrection_eq_bearingRule left right, ?_, ?_, ?_⟩
  · rw [← irCorrection_eq_bearingRule]
    rfl
  · intro hs hd
    rw [irCorrection_eq_bearingRule]
    simp only [bearingRule]
    rw [if_neg hs, if_pos hd]
  · intro hs hd
    rw [irCorrection_eq_bearingRule]
    simp only [bearingRule]
    rw [if_neg hs, if_neg (by omega)]

/-- Witness of C1: readings (100, 300) give MOVE_RIGHT, readings (300, 100)
give MOVE_LEFT, and a world whose two sensors both read 300 gives
MOVE_STRAIGHT. -/
theorem readIrDirection_decision_rule_witness :
    irCorrection 100 300 = MOVE_RIGHT ∧ irCorrection 300 100 = MOVE_LEFT ∧
    (readIrDirection (constWorld 800 [])).1 = bearingRule 300 300 :=
  ⟨(readIrDirection_decision_rule (constWorld 800 []) 100 300).2.2.1 (by decide) (by decide),
   (readIrDirection_decision_rule (constWorld 800 []) 300 100).2.2.2 (by decide) (by decide),
   (readIrDirection_decision_rule (constWorld 800 []) 300 300).2.1⟩

/-- C2: whenever the two bearing readings are equal and both strictly above
the signal threshold 200, the decision of `readIrDirection` is MOVE_STRAIGHT,
and so is the value `readIrDirection` returns in every world whose right and
left sensors yield those readings. -/
theorem readIrDirection_equal_readings_straight (left right : Int)
    (heq : left = right) (hl : left > 200) (hr : right > 200) :
    irCorrection left right = MOVE_STRAIGHT ∧
    ∀ w : World, (readIrRight w).1 = right → (readIrLeft (readIrRight w).2).1 = left →
      (readIrDirection w).1 = MOVE_STRAIGHT := by
  have hpure : irCorrection left right = MOVE_STRAIGHT := by
    rw [irCorrection_eq_bearingRule]
    simp only [bearingRule]
    rw [if_pos ⟨by omega, hl, hr⟩]
  refine ⟨hpure, ?_⟩
  intro w h1 h2
  have hrun : (readIrDirection w).1
      = irCorrection (readIrLeft (readIrRight w).2).1 (readIrRight w).1 := rfl
  rw [hrun, h1, h2]
  exact hpure

/-- Witness of C2: both sensors read 300. -/
theorem readIrDirection_equal_readings_straight_witness :
    irCorrection 300 300 = MOVE_STRAIGHT ∧
    (readIrDirection (constWorld 800 [])).1 = MOVE_STRAIGHT :=
  ⟨(readIrDirection_equal_readings_straight 300 300 rfl (by decide) (by decide)).1,
   (readIrDirection_equal_readings_straight 300 300 rfl (by decide) (by decide)).2
     (constWorld 800 []) (by decide) (by decide)⟩

/-! ## Collision override and recovery -/

/-- C3: the collision override of one control cycle. If the monitor reports a
collision and the current state is not COLLISION, the state the `switch`
dispatches on is COLLISION and the cycle is exactly a run of `handleCollision`
(no other handler runs; the world only receives the diagnostic line). If the
monitor reports no collision, or the current state is already COLLISION, the
state dispatched on is the unchanged current state. In every case the cycle is
the dispatch on the context `collisionOverride` produces. -/
theorem collision_override_dispatch (collision : Bool) (fuel : Nat) (ctx : RobotContext_t)
    (w : World) :
    (collision = true → ctx.state ≠ COLLISION →
      (collisionOverride collision ctx).state = COLLISION ∧
      cycle collision fuel ctx w
        = some (handleCollision { state := COLLISION, prevState := ctx.state },
            (printf ("Current state " ++ stateToString ctx.state ++ "\n") w).2)) ∧
    (collision = false ∨ ctx.state = COLLISION →
      (collisionOverride collision ctx).state = ctx.state) ∧
    cycle collision fuel ctx w
      = dispatch fuel (collisionOverride collision ctx)
          (printf ("Current state " ++ stateToString ctx.state ++ "\n") w).2 := by
  refine ⟨?_, ?_, rfl⟩
  · intro hc hs
    have ho : collisionOverride collision ctx
        = { state := COLLISION, prevState := ctx.state } := by
      simp [collisionOverride, hc, hs]
    refine ⟨by rw [ho], ?_⟩
    simp only [cycle, ho, dispatch]
  · intro h
    rcases h with hc | hs
    · simp [collisionOverride, hc]
    · simp [collisionOverride, hs]

/-- Witness of C3: a collision reported in SEARCHING dispatches on COLLISION;
no collision in SEARCHING, and a collision reported in COLLISION, dispatch on
the current state. -/
theorem collision_override_dispatch_witness :
    ((collisionOverride true { state := SEARCHING, prevState := IDLE }).state = COLLISION ∧
      cycle true 0 { state := SEARCHING, prevState := IDLE } (constWorld 0 [])
        = some (handleCollision { state := COLLISION, prevState := SEARCHING },
            (printf ("Current state " ++ stateToString SEARCHING ++ "\n")
              (constWorld 0 [])).2)) ∧
    (collisionOverride false { state := SEARCHING, prevState := IDLE }).state = SEARCHING ∧
    (collisionOverride true { state := COLLISION, prevState := IDLE }).state = COLLISION :=
  ⟨(collision_override_dispatch true 0 { state := SEARCHING, prevState := IDLE }
      (constWorld 0 [])).1 rfl (by decide),
   (collision_override_dispatch false 0 { state := SEARCHING, prevState := IDLE }
      (constWorld 0 [])).2.1 (Or.inl rfl),
   (collision_override_dispatch true 0 { state := COLLISION, prevState := IDLE }
      (constWorld 0 [])).2.1 (Or.inr rfl)⟩

/-- C4: `handleCollision` recovers to SEARCHING when the previous state is
ALIGNMENT and to the previous state otherwise (so to SEARCHING when the
previous state is SEARCHING); the resulting state is never ALIGNMENT, and
`prevState` is not modified. -/
theorem handleCollision_recovery (ctx : RobotContext_t) :
    (ctx.prevState = ALIGNMENT → (handleCollision ctx).state = SEARCHING) ∧
    (ctx.prevState ≠ ALIGNMENT → (handleCollision ctx).state = ctx.prevState) ∧
    (ctx.prevState = SEARCHING → (handleCollision ctx).state = SEARCHING) ∧
    (handleCollision ctx).state ≠ ALIGNMENT ∧
    (handleCollision ctx).prevState = ctx.prevState := by
  unfold handleCollision
  by_cases h : ctx.prevState = ALIGNMENT
  · simp [h]
  · simp [h]

/-- Witness of C4: recovery from ALIGNMENT, from SEARCHING and from IDLE. -/
theorem handleCollision_recovery_witness :
    (handleCollision { state := COLLISION, prevState := ALIGNMENT }).state = SEARCHING ∧
    (handleCollision { state := COLLISION, prevState := IDLE }).state = IDLE ∧
    (handleCollision { state := COLLISION, prevState := SEARCHING }).state = SEARCHING :=
  ⟨(handleCollision_recovery { state := COLLISION, prevState := ALIGNMENT }).1 rfl,
   (handleCollision_recovery { state := COLLISION, prevState := IDLE }).2.1 (by decide),
   (handleCollision_recovery { state := COLLISION, prevState := SEARCHING }).2.2.1 rfl⟩

/-! ## Alignment and actuation -/

theorem motorCommands_append (t u : List Event) :
    motorCommands (t ++ u) = motorCommands t ++ motorCommands u := by
  simp [motorCommands, List.filterMap_append]

/-- C5: `handleAlignment` moves to SEARCHING when the bearing decision is not
MOVE_STRAIGHT and leaves the state unchanged when it is MOVE_STRAIGHT, so a
robot in ALIGNMENT stays in ALIGNMENT and in no case moves to DROP_OBJECT. The
world it leaves is the one left by the two sensor reads of `readIrDirection`:
the trace gains the two sensor lines only, and no motor command is issued. -/
theorem handleAlignment_transitions (ctx : RobotContext_t) (w : World) :
    ((readIrDirection w).1 ≠ MOVE_STRAIGHT → (handleAlignment ctx w).1.state = SEARCHING) ∧
    ((readIrDirection w).1 = MOVE_STRAIGHT → (handleAlignment ctx w).1 = ctx) ∧
    (ctx.state = ALIGNMENT → (readIrDirection w).1 = MOVE_STRAIGHT →
      (handleAlignment ctx w).1.state = ALIGNMENT) ∧
    (ctx.state = ALIGNMENT → (handleAlignment ctx w).1.state ≠ DROP_OBJECT) ∧
    (handleAlignment ctx w).2.trace = w.trace ++
      [Event.sensor "Photo Transistor Right" (sensorValue (w.randSeq w.randPos)),
       Event.sensor "Photo Transistor Left" (sensorValue (w.randSeq (w.randPos + 1)))] ∧
    motorCommands (handleAlignment ctx w).2.trace = motorCommands w.trace := by
  rw [handleAlignment_run]
  refine ⟨?_, ?_, ?_, ?_, ?_, ?_⟩
  · intro h
    simp [h]
  · intro h
    simp [h]
  · intro hs h
    simp [h, hs]
  · intro hs
    by_cases h : (readIrDirection w).1 = MOVE_STRAIGHT
    · simp [h, hs]
    · simp [h]
  · rw [readIrDirection_run]
  · rw [readIrDirection_run]
    simp [motorCommands_append, motorCommands]

/-- Witness of C5: in ALIGNMENT, readings (300, 300) decide MOVE_STRAIGHT and
the state stays ALIGNMENT; readings (-400, -400) decide MOVE_LEFT and the
state becomes SEARCHING. -/
theorem handleAlignment_transitions_witness :
    (handleAlignment { state := ALIGNMENT, prevState := SEARCHING } (constWorld 100 [])).1.state
      = SEARCHING ∧
    (handleAlignment { state := ALIGNMENT, prevState := SEARCHING } (constWorld 800 [])).1
      = { state := ALIGNMENT, prevState := SEARCHING } ∧
    (handleAlignment { state := ALIGNMENT, prevState := SEARCHING } (constWorld 800 [])).1.state
      = ALIGNMENT ∧
    (handleAlignment { state := ALIGNMENT, prevState := SEARCHING } (constWorld 100 [])).1.state
      ≠ DROP_OBJECT :=
  ⟨(handleAlignment_transitions { state := ALIGNMENT, prevState := SEARCHING }
      (constWorld 100 [])).1 (by decide),
   (handleAlignment_transitions { state := ALIGNMENT, prevState := SEARCHING }
      (constWorld 800 [])).2.1 (by decide),
   (handleAlignment_transitions { state := ALIGNMENT, prevState := SEARCHING }
      (constWorld 800 [])).2.2.1 rfl (by decide),
   (handleAlignment_transitions { state := ALIGNMENT, prevState := SEARCHING }
      (constWorld 100 [])).2.2.2.1 rfl⟩

theorem lastMotor_append_stop (motorNumber : Int) (t : List Event) (a b : Int × Int)
    (usec : Int) (h : motorNumber = 1 ∨ motorNumber = 2) :
    lastMotor motorNumber
      (t ++ [Event.motor 1 a.1, Event.motor 2 a.2, Event.sleep usec,
        Event.motor 1 b.1, Event.motor 2 b.2])
      = some (if motorNumber = 1 then b.1 else b.2) := by
  rcases h with rfl | rfl <;> simp [lastMotor, List.foldl_append]

theorem wheelPowers_append_stop (init : Int × Int) (t : List Event) (a b : Int × Int)
    (usec : Int) :
    wheelPowers init
      (t ++ [Event.motor 1 a.1, Event.motor 2 a.2, Event.sleep usec,
        Event.motor 1 b.1, Event.motor 2 b.2])
      = b := by
  simp [wheelPowers, List.foldl_append, wheelStep]

/-- C6: for every power level and every duration (zero and negative ones
included), after each of `driveStraight`, `turnRight` and `turnLeft` the last
command sent to motor 1 and the last command sent to motor 2 both carry power
0, and the wheel powers, taken as a state pair, are (0, 0) whatever they were
before the call. -/
theorem actuation_leaves_wheels_stopped (powerLevel time : Int) (w : World)
    (init : Int × Int) :
    (lastMotor 1 (driveStraight powerLevel time w).2.trace = some 0 ∧
      lastMotor 2 (driveStraight powerLevel time w).2.trace = some 0 ∧
      wheelPowers init (driveStraight powerLevel time w).2.trace = (0, 0)) ∧
    (lastMotor 1 (turnRight powerLevel time w).2.trace = some 0 ∧
      lastMotor 2 (turnRight powerLevel time w).2.trace = some 0 ∧
      wheelPowers init (turnRight powerLevel time w).2.trace = (0, 0)) ∧
    (lastMotor 1 (turnLeft powerLevel time w).2.trace = some 0 ∧
      lastMotor 2 (turnLeft powerLevel time w).2.trace = some 0 ∧
      wheelPowers init (turnLeft powerLevel time w).2.trace = (0, 0)) := by
  rw [driveStraight_run, turnRight_run, turnLeft_run]
  refine ⟨⟨?_, ?_, ?_⟩, ⟨?_, ?_, ?_⟩, ⟨?_, ?_, ?_⟩⟩
  · exact lastMotor_append_stop 1 w.trace (powerLevel, powerLevel) (0, 0) _ (Or.inl rfl)
  · exact lastMotor_append_stop 2 w.trace (powerLevel, powerLevel) (0, 0) _ (Or.inr rfl)
  · exact wheelPowers_append_stop init w.trace (powerLevel, powerLevel) (0, 0) _
  · exact lastMotor_append_stop 1 w.trace (powerLevel, wrapInt (-powerLevel)) (0, 0) _ (Or.inl rfl)
  · exact lastMotor_append_stop 2 w.trace (powerLevel, wrapInt (-powerLevel)) (0, 0) _ (Or.inr rfl)
  · exact wheelPowers_append_stop init w.trace (powerLevel, wrapInt (-powerLevel)) (0, 0) _
  · exact lastMotor_append_stop 1 w.trace (wrapInt (-powerLevel), powerLevel) (0, 0) _ (Or.inl rfl)
  · exact lastMotor_append_stop 2 w.trace (wrapInt (-powerLevel), powerLevel) (0, 0) _ (Or.inr rfl)
  · exact wheelPowers_append_stop init w.trace (wrapInt (-powerLevel), powerLevel) (0, 0) _

/-! ## The control cycle -/

theorem handleIdle_some (fuel : Nat) (ctx : RobotContext_t) (w : World)
    (r : RobotContext_t × World) (h : handleIdle fuel ctx w = some r) :
    r.1 = { ctx with state := SEARCHING } := by
  unfold handleIdle at h
  split at h
  · exact absurd h (by simp)
  · cases h
    rfl

theorem dispatch_prevState (fuel : Nat) (ctx : RobotContext_t) (w : World)
    (r : RobotContext_t × World) (h : dispatch fuel ctx w = some r) :
    r.1.prevState = ctx.prevState := by
  unfold dispatch at h
  split at h
  · rw [handleIdle_some fuel ctx w r h]
  · cases h
    rw [handleSearching_run]
  · cases h
    rw [handleAlignment_run]
    split <;> rfl
  · cases h
    rw [handleDrop_run]
  · cases h
    rw [handleComplete_run]
  · cases h
    unfold handleCollision
    split <;> rfl

theorem dispatch_isSome (fuel : Nat) (ctx : RobotContext_t) (w : World)
    (h : ctx.state ≠ IDLE) : (dispatch fuel ctx w).isSome = true := by
  unfold dispatch
  split <;> first | rfl | exact absurd ‹ctx.state = IDLE› h

/-- C7: `prevState` bookkeeping. Whenever a cycle of `startStateMachine`
returns (whatever the monitor reports, the sensors read and the handler
dispatched), `prevState` at its end is the value `state` had at its start,
before the collision override; a cycle returns whenever the state dispatched
on is not IDLE. No handler writes `prevState`: each of `handleIdle`,
`handleSearching`, `handleAlignment`, `handleDrop`, `handleComplete` and
`handleCollision` returns a context with the `prevState` it was given. -/
theorem prevState_bookkeeping (collision : Bool) (fuel : Nat) (ctx : RobotContext_t)
    (w : World) :
    (∀ r, cycle collision fuel ctx w = some r → r.1.prevState = ctx.state) ∧
    ((collisionOverride collision ctx).state ≠ IDLE →
      (cycle collision fuel ctx w).isSome = true) ∧
    (∀ r, handleIdle fuel ctx w = some r → r.1.prevState = ctx.prevState) ∧
    (handleSearching ctx w).1.prevState = ctx.prevState ∧
    (handleAlignment ctx w).1.prevState = ctx.prevState ∧
    (handleDrop ctx w).1.prevState = ctx.prevState ∧
    (handleComplete ctx w).1.prevState = ctx.prevState ∧
    (handleCollision ctx).prevState = ctx.prevState := by
  refine ⟨?_, ?_, ?_, ?_, ?_, ?_, ?_, ?_⟩
  · intro r h
    have hp := dispatch_prevState fuel (collisionOverride collision ctx) _ r h
    rw [hp]
    unfold collisionOverride
    simp only
    split <;> rfl
  · intro h
    exact dispatch_isSome fuel _ _ h
  · intro r h
    rw [handleIdle_some fuel ctx w r h]
  · rw [handleSearching_run]
  · rw [handleAlignment_run]
    split <;> rfl
  · rw [handleDrop_run]
  · rw [handleComplete_run]
  · unfold handleCollision
    split <;> rfl

/-- Witness of C7: a cycle started in SEARCHING with `prevState` IDLE and no
collision returns with `prevState` SEARCHING, and `handleIdle` on the start
token returns the `prevState` it was given. -/
theorem prevState_bookkeeping_witness :
    (handleSearching { state := SEARCHING, prevState := SEARCHING }
        (printf "Current state SEARCHING\n" (constWorld 800 [])).2).1.prevState = SEARCHING ∧
    (cycle false 0 { state := SEARCHING, prevState := IDLE } (constWorld 800 [])).isSome
      = true ∧
    (({ state := SEARCHING, prevState := COMPLETE } : RobotContext_t),
        { constWorld 0 ['n'] with stdinPos := 1 }).1.prevState = COMPLETE :=
  ⟨(prevState_bookkeeping false 0 { state := SEARCHING, prevState := IDLE }
      (constWorld 800 [])).1 _ rfl,
   (prevState_bookkeeping false 0 { state := SEARCHING, prevState := IDLE }
      (constWorld 800 [])).2.1 (by decide),
   (prevState_bookkeeping false 1 { state := IDLE, prevState := COMPLETE }
      (constWorld 0 ['n'])).2.2.1 _ rfl⟩

/-- C8: `handleSearching` always transitions to ALIGNMENT: for every context
and every world (hence every forward-range reading and every pair of bearing
readings, whichever correction is chosen and whether or not the clearance is
below 50), the state it returns is ALIGNMENT. -/
theorem handleSearching_to_alignment (ctx : RobotContext_t) (w : World) :
    (handleSearching ctx w).1.state = ALIGNMENT := by
  rw [handleSearching_run]

/-- C9: the IDLE start. Let the context be in IDLE, let the first start token
`n` of the remaining input be its character number `k` (counting from 0), and
let no collision be reported. Then, given fuel for more than `k` reads, the
cycle returns with `state = SEARCHING` and `prevState = IDLE`, having read
exactly `k + 1` characters (the `k` earlier ones are discarded); `rand()` is
not called (no sensor is read) and the trace gains the diagnostic line only
(no motor command is issued). -/
theorem idle_cycle_starts_search (ctx : RobotContext_t) (w : World) (k fuel : Nat)
    (hs : ctx.state = IDLE)
    (hbefore : ∀ i, i < k → w.stdin (w.stdinPos + i) ≠ some 'n')
    (hstart : w.stdin (w.stdinPos + k) = some 'n')
    (hfuel : k < fuel) :
    cycle false fuel ctx w
      = some ({ state := SEARCHING, prevState := IDLE },
          { w with
            stdinPos := w.stdinPos + k + 1
            trace := w.trace ++ [Event.print "Current state IDLE\n"] }) := by
  have ho : collisionOverride false ctx = { state := IDLE, prevState := IDLE } := by
    simp [collisionOverride, hs]
  have hw := waitForStartButton_first k fuel
    (printf ("Current state " ++ stateToString ctx.state ++ "\n") w).2 hbefore hstart hfuel
  simp only [cycle, ho, dispatch, handleIdle, hw]
  rw [hs]
  rfl

/-- Witness of C9: the input `a`, `n`, `b` is read up to and including the
`n`, with fuel for two reads. -/
theorem idle_cycle_starts_search_witness :
    cycle false 2 { state := IDLE, prevState := IDLE } (constWorld 0 ['a', 'n', 'b'])
      = some ({ state := SEARCHING, prevState := IDLE },
          { constWorld 0 ['a', 'n', 'b'] with
            stdinPos := (constWorld 0 ['a', 'n', 'b']).stdinPos + 1 + 1
            trace := (constWorld 0 ['a', 'n', 'b']).trace
              ++ [Event.print "Current state IDLE\n"] }) :=
  idle_cycle_starts_search { state := IDLE, prevState := IDLE } (constWorld 0 ['a', 'n', 'b'])
    1 2 rfl
    (fun i hi => by
      obtain rfl : i = 0 := by omega
      decide)
    (by decide) (by decide)

theorem cycle_complete (fuel : Nat) (ctx : RobotContext_t) (w : World)
    (hs : ctx.state = COMPLETE) :
    cycle false fuel ctx w
      = some ({ state := COMPLETE, prevState := COMPLETE },
          { w with
            trace := w.trace ++
              [Event.print "Current state COMPLETE\n", Event.print "Done!\n"] }) := by
  have ho : collisionOverride false ctx = { state := COMPLETE, prevState := COMPLETE } := by
    simp [collisionOverride, hs]
  simp only [cycle, ho, dispatch, handleComplete_run]
  rw [hs]
  simp [printf, emit_run, stateToString]

/-- C10: COMPLETE is idempotent. `handleComplete` returns the context it was
given (`state` and `prevState` unchanged) and a world that differs only by the
diagnostic line: no motor command is issued, `rand()` is not called and no
input is read. Hence, for every `n`, `n` consecutive cycles started with
`state = COMPLETE` under a monitor that reports no collision return and end
with `state = COMPLETE`, without any sensor read, input read or motor
command. -/
theorem handleComplete_idempotent (ctx : RobotContext_t) (w : World) (monitor : Nat → Bool)
    (fuel n : Nat) :
    handleComplete ctx w = (ctx, { w with trace := w.trace ++ [Event.print "Done!\n"] }) ∧
    motorCommands (handleComplete ctx w).2.trace = motorCommands w.trace ∧
    (ctx.state = COMPLETE → (∀ i, i < n → monitor i = false) →
      ∃ r, runCycles monitor fuel n ctx w = some r ∧ r.1.state = COMPLETE ∧
        r.2.randPos = w.randPos ∧ r.2.stdinPos = w.stdinPos ∧
        motorCommands r.2.trace = motorCommands w.trace) := by
  refine ⟨rfl, ?_, ?_⟩
  · rw [handleComplete_run]
    simp [motorCommands_append, motorCommands]
  · intro hs
    induction n with
    | zero =>
      intro _
      exact ⟨(ctx, w), rfl, hs, rfl, rfl, rfl⟩
    | succ n ih =>
      intro hm
      obtain ⟨r, hr, hrs, hrand, hin, hmot⟩ := ih (fun i hi => hm i (by omega))
      have hc : runCycles monitor fuel (n + 1) ctx w = cycle false fuel r.1 r.2 := by
        simp only [runCycles, hr, hm n (by omega)]
      rw [hc, cycle_complete fuel r.1 r.2 hrs]
      refine ⟨_, rfl, rfl, hrand, hin, ?_⟩
      show motorCommands (r.2.trace ++ _) = _
      rw [motorCommands_append, hmot]
      simp [motorCommands]

/-- Witness of C10: three cycles started in COMPLETE without collision end in
COMPLETE. -/
theorem handleComplete_idempotent_witness :
    ∃ r, runCycles (fun _ => false) 0 3 { state := COMPLETE, prevState := ALIGNMENT }
        (constWorld 0 []) = some r ∧ r.1.state = COMPLETE ∧
      r.2.randPos = (constWorld 0 []).randPos ∧ r.2.stdinPos = (constWorld 0 []).stdinPos ∧
      motorCommands r.2.trace = motorCommands (constWorld 0 []).trace :=
  (handleComplete_idempotent { state := COMPLETE, prevState := ALIGNMENT } (constWorld 0 [])
    (fun _ => false) 0 3).2.2 rfl (fun _ _ => rfl)

/-! ## Drop, one-sided straight test, collision recovery -/

/-- C11: `handleDrop` returns the context it was given (`state` and `prevState`
unchanged), so a cycle started in DROP_OBJECT without a collision returns in
DROP_OBJECT, not in COMPLETE. Its effects are, in this order: the drop line, a
settle wait of 1000 ms, both wheels set to -50 (left first), a wait of 2000
ms, both wheels set to 0; these four motor commands are the only ones. -/
theorem handleDrop_reverses_and_keeps_state (ctx : RobotContext_t) (w : World) (fuel : Nat) :
    handleDrop ctx w
      = (ctx, { w with
          trace := w.trace ++
            [Event.print "Dropping object...\n", Event.sleep 1000000,
             Event.motor 1 (-50), Event.motor 2 (-50), Event.sleep 2000000,
             Event.motor 1 0, Event.motor 2 0] }) ∧
    motorCommands (handleDrop ctx w).2.trace
      = motorCommands w.trace ++ [(1, -50), (2, -50), (1, 0), (2, 0)] ∧
    (ctx.state = DROP_OBJECT →
      (cycle false fuel ctx w).map (fun r => r.1)
        = some { state := DROP_OBJECT, prevState := DROP_OBJECT }) := by
  have hrun := handleDrop_run ctx w
  simp only [POWER_LEVEL_MED] at hrun
  norm_num at hrun
  refine ⟨hrun, ?_, ?_⟩
  · rw [hrun]
    simp [motorCommands_append, motorCommands]
  · intro hs
    have ho : collisionOverride false ctx = { state := DROP_OBJECT, prevState := DROP_OBJECT } := by
      simp [collisionOverride, hs]
    simp only [cycle, ho, dispatch, handleDrop_run, Option.map_some']

/-- Witness of C11: a cycle started in DROP_OBJECT (coming from ALIGNMENT)
without collision ends in DROP_OBJECT. -/
theorem handleDrop_reverses_and_keeps_state_witness :
    (cycle false 0 { state := DROP_OBJECT, prevState := ALIGNMENT } (constWorld 0 [])).map
        (fun r => r.1)
      = some { state := DROP_OBJECT, prevState := DROP_OBJECT } :=
  (handleDrop_reverses_and_keeps_state { state := DROP_OBJECT, prevState := ALIGNMENT }
    (constWorld 0 []) 0).2.2 rfl

/-- C12: the straight test is one-sided. For readings that both exceed the
signal threshold 200: if `left < right` the decision is MOVE_STRAIGHT however
negative `left - right` is; the decision is never MOVE_RIGHT; and if
`left - right ≥ 50` it is MOVE_LEFT. The same holds of the value
`readIrDirection` returns in every world whose sensors yield those readings. -/
theorem straight_test_one_sided (left right : Int) (hl : left > 200) (hr : right > 200) :
    (left < right → irCorrection left right = MOVE_STRAIGHT) ∧
    irCorrection left right ≠ MOVE_RIGHT ∧
    (left - right ≥ 50 → irCorrection left right = MOVE_LEFT) ∧
    (∀ w : World, (readIrRight w).1 = right → (readIrLeft (readIrRight w).2).1 = left →
      (left < right → (readIrDirection w).1 = MOVE_STRAIGHT) ∧
      (readIrDirection w).1 ≠ MOVE_RIGHT ∧
      (left - right ≥ 50 → (readIrDirection w).1 = MOVE_LEFT)) := by
  have h1 : left < right → irCorrection left right = MOVE_STRAIGHT := by
    intro hlt
    rw [irCorrection_eq_bearingRule]
    simp only [bearingRule]
    rw [if_pos ⟨by omega, hl, hr⟩]
  have h2 : irCorrection left right ≠ MOVE_RIGHT := by
    rw [irCorrection_eq_bearingRule]
    simp only [bearingRule]
    by_cases hd : left - right < 50
    · rw [if_pos ⟨hd, hl, hr⟩]
      decide
    · rw [if_neg (fun h => hd h.1), if_neg (by omega)]
      decide
  have h3 : left - right ≥ 50 → irCorrection left right = MOVE_LEFT := by
    intro hge
    rw [irCorrection_eq_bearingRule]
    simp only [bearingRule]
    rw [if_neg (fun h => by omega), if_neg (by omega)]
  refine ⟨h1, h2, h3, ?_⟩
  intro w hright hleft
  have hrun : (readIrDirection w).1
      = irCorrection (readIrLeft (readIrRight w).2).1 (readIrRight w).1 := rfl
  rw [hrun, hright, hleft]
  exact ⟨h1, h2, h3⟩

/-- Witness of C12: readings left = 201, right = 500 (difference -299) decide
MOVE_STRAIGHT, also as read from the sensors, while the mirrored readings
left = 500, right = 201 decide MOVE_LEFT. -/
theorem straight_test_one_sided_witness :
    irCorrection 201 500 = MOVE_STRAIGHT ∧
    (readIrDirection (seqWorld [1000, 701] [])).1 = MOVE_STRAIGHT ∧
    irCorrection 500 201 = MOVE_LEFT :=
  ⟨(straight_test_one_sided 201 500 (by decide) (by decide)).1 (by decide),
   ((straight_test_one_sided 201 500 (by decide) (by decide)).2.2.2
      (seqWorld [1000, 701] []) (by decide) (by decide)).1 (by decide),
   (straight_test_one_sided 500 201 (by decide) (by decide)).2.2.1 (by decide)⟩

/-- C13: collision recovery in one cycle. For every context whose state `s`
is not COLLISION, a cycle in which the monitor reports a collision returns
(whatever the fuel) with `prevState = s` and with `state = SEARCHING` if `s` is
ALIGNMENT and `state = s` otherwise. The world only gains the diagnostic line
of the cycle: `rand()` is not called (no sensor read), no motor command is
issued and no input is read, so the handler of `s` does not run. -/
theorem collision_recovery_cycle (fuel : Nat) (ctx : RobotContext_t) (w : World)
    (hs : ctx.state ≠ COLLISION) :
    cycle true fuel ctx w
      = some ({ state := if ctx.state = ALIGNMENT then SEARCHING else ctx.state,
                prevState := ctx.state },
          { w with
            trace := w.trace ++
              [Event.print ("Current state " ++ stateToString ctx.state ++ "\n")] }) := by
  have ho : collisionOverride true ctx = { state := COLLISION, prevState := ctx.state } := by
    simp [collisionOverride, hs]
  simp only [cycle, ho, dispatch, handleCollision]
  split <;> rfl

/-- Witness of C13: a collision in ALIGNMENT recovers to SEARCHING. -/
theorem collision_recovery_cycle_witness :
    cycle true 0 { state := ALIGNMENT, prevState := SEARCHING } (constWorld 0 [])
      = some ({ state := SEARCHING, prevState := ALIGNMENT },
          { constWorld 0 [] with
            trace := (constWorld 0 []).trace ++ [Event.print "Current state ALIGNMENT\n"] }) :=
  collision_recovery_cycle 0 { state := ALIGNMENT, prevState := SEARCHING } (constWorld 0 [])
    (by decide)

/-! ## Runs of the controller -/

theorem cycle_state (collision : Bool) (fuel : Nat) (ctx : RobotContext_t) (w : World)
    (r : RobotContext_t × World) (h : cycle collision fuel ctx w = some r) :
    (ctx.state = COLLISION ∧ r.1.state = COLLISION) ∨
    (ctx.state ≠ COLLISION ∧ collision = true ∧
      r.1.state = (if ctx.state = ALIGNMENT then SEARCHING else ctx.state)) ∨
    (collision = false ∧
      ((ctx.state = IDLE ∧ r.1.state = SEARCHING) ∨
       (ctx.state = SEARCHING ∧ r.1.state = ALIGNMENT) ∨
       (ctx.state = ALIGNMENT ∧ (r.1.state = SEARCHING ∨ r.1.state = ALIGNMENT)) ∨
       (ctx.state = DROP_OBJECT ∧ r.1.state = DROP_OBJECT) ∨
       (ctx.state = COMPLETE ∧ r.1.state = COMPLETE))) := by
  obtain ⟨s, p⟩ := ctx
  unfold cycle at h
  by_cases hc : s = COLLISION
  · subst hc
    left
    have ho : collisionOverride collision { state := COLLISION, prevState := p }
        = { state := COLLISION, prevState := COLLISION } := by
      simp [collisionOverride]
    simp only [ho, dispatch, handleCollision] at h
    cases h
    exact ⟨rfl, rfl⟩
  · right
    cases collision
    · right
      refine ⟨rfl, ?_⟩
      have ho : collisionOverride false { state := s, prevState := p }
          = { state := s, prevState := s } := by
        simp [collisionOverride]
      rw [ho] at h
      cases s
      · left
        simp only [dispatch] at h
        rw [handleIdle_some _ _ _ r h]
        exact ⟨rfl, rfl⟩
      · right; left
        simp only [dispatch, handleSearching_run] at h
        cases h
        exact ⟨rfl, rfl⟩
      · right; right; left
        simp only [dispatch, handleAlignment_run] at h
        cases h
        refine ⟨rfl, ?_⟩
        simp only
        split
        · exact Or.inl rfl
        · exact Or.inr rfl
      · right; right; right; left
        simp only [dispatch, handleDrop_run] at h
        cases h
        exact ⟨rfl, rfl⟩
      · right; right; right; right
        simp only [dispatch, handleComplete_run] at h
        cases h
        exact ⟨rfl, rfl⟩
      · exact absurd rfl hc
    · left
      have ho : collisionOverride true { state := s, prevState := p }
          = { state := COLLISION, prevState := s } := by
        simp [collisionOverride, hc]
      simp only [ho, dispatch, handleCollision] at h
      cases h
      refine ⟨hc, rfl, ?_⟩
      simp only
      split <;> simp_all

theorem cycle_prevState (collision : Bool) (fuel : Nat) (ctx : RobotContext_t) (w : World)
    (r : RobotContext_t × World) (h : cycle collision fuel ctx w = some r) :
    r.1.prevState = ctx.state := by
  rw [dispatch_prevState fuel (collisionOverride collision ctx) _ r h]
  unfold collisionOverride
  simp only
  split <;> rfl

theorem runCycles_succ (monitor : Nat → Bool) (fuel n : Nat) (ctx : RobotContext_t)
    (w : World) (r : RobotContext_t × World)
    (h : runCycles monitor fuel (n + 1) ctx w = some r) :
    ∃ rn, runCycles monitor fuel n ctx w = some rn ∧
      cycle (monitor n) fuel rn.1 rn.2 = some r := by
  simp only [runCycles] at h
  split at h
  · exact absurd h (by simp)
  · next rn hrn => exact ⟨rn, hrn, h⟩

theorem cycle_not_collision (collision : Bool) (fuel : Nat) (ctx : RobotContext_t)
    (w : World) (r : RobotContext_t × World) (hs : ctx.state ≠ COLLISION)
    (h : cycle collision fuel ctx w = some r) : r.1.state ≠ COLLISION := by
  rcases cycle_state collision fuel ctx w r h with ⟨h1, _⟩ | ⟨_, _, h2⟩ | ⟨_, h3⟩
  · exact absurd h1 hs
  · rw [h2]
    split
    · decide
    · exact hs
  · rcases h3 with ⟨_, e⟩ | ⟨_, e⟩ | ⟨_, e | e⟩ | ⟨_, e⟩ | ⟨_, e⟩ <;> rw [e] <;> decide

theorem runCycles_not_collision (monitor : Nat → Bool) (fuel : Nat) (ctx : RobotContext_t)
    (w : World) (hs : ctx.state ≠ COLLISION) :
    ∀ (n : Nat) (r : RobotContext_t × World),
      runCycles monitor fuel n ctx w = some r → r.1.state ≠ COLLISION := by
  intro n
  induction n with
  | zero =>
    intro r h
    simp only [runCycles, Option.some.injEq] at h
    rw [← h]
    exact hs
  | succ n ih =>
    intro r h
    obtain ⟨rn, hrn, hcy⟩ := runCycles_succ monitor fuel n ctx w r h
    exact cycle_not_collision _ fuel rn.1 rn.2 r (ih rn hrn) hcy

theorem runCycles_collision_stuck (monitor : Nat → Bool) (fuel : Nat) (ctx : RobotContext_t)
    (w : World) (hs : ctx.state = COLLISION) (n : Nat) :
    (runCycles monitor fuel n ctx w).map (fun r => r.1.state) = some COLLISION := by
  induction n with
  | zero => simp [runCycles, hs]
  | succ n ih =>
    cases hrn : runCycles monitor fuel n ctx w with
    | none => simp [hrn] at ih
    | some rn =>
      have hst : rn.1.state = COLLISION := by simpa [hrn] using ih
      have ho : collisionOverride (monitor n) rn.1
          = { state := COLLISION, prevState := COLLISION } := by
        simp [collisionOverride, hst]
      simp only [runCycles, hrn, cycle, ho, dispatch, handleCollision]
      rfl

/-- C14, refuted as stated: started with `state = COLLISION` (here with
`prevState = SEARCHING`), the controller is in COLLISION after every number
of cycles, both with the monitor of the source and with a monitor that always
reports a collision: line 235 saves COLLISION into `prevState` and
`handleCollision` restores it. -/
theorem collision_at_cycle_start_never_exits :
    (∀ n, (startStateMachine 0 n { state := COLLISION, prevState := SEARCHING }
        (constWorld 0 [])).map (fun r => r.1.state) = some COLLISION) ∧
    (∀ n, (runCycles (fun _ => true) 0 n { state := COLLISION, prevState := SEARCHING }
        (constWorld 0 [])).map (fun r => r.1.state) = some COLLISION) :=
  ⟨fun n => runCycles_collision_stuck _ 0 _ _ rfl n,
   fun n => runCycles_collision_stuck _ 0 _ _ rfl n⟩

/-- C14, amended: COLLISION entered through the override always exits, within
the cycle that enters it. For every context whose state is not COLLISION at
the start of a control cycle (any `prevState`), a cycle in which the monitor
reports a collision returns with a state that is no longer COLLISION; and
whatever the monitor reports afterwards, the state at the end of every later
cycle is not COLLISION either. -/
theorem collision_exits_within_cycle (monitor : Nat → Bool) (fuel : Nat)
    (ctx : RobotContext_t) (w : World) (hs : ctx.state ≠ COLLISION) :
    (∃ r, cycle true fuel ctx w = some r ∧ r.1.state ≠ COLLISION) ∧
    (∀ (n : Nat) (r : RobotContext_t × World),
      runCycles monitor fuel n ctx w = some r → r.1.state ≠ COLLISION) := by
  refine ⟨?_, runCycles_not_collision monitor fuel ctx w hs⟩
  have ho : collisionOverride true ctx = { state := COLLISION, prevState := ctx.state } := by
    simp [collisionOverride, hs]
  have hrun : cycle true fuel ctx w
      = some (handleCollision { state := COLLISION, prevState := ctx.state },
          (printf ("Current state " ++ stateToString ctx.state ++ "\n") w).2) := by
    simp only [cycle, ho, dispatch]
  refine ⟨_, hrun, ?_⟩
  simp only [handleCollision]
  split
  · exact fun h => RobotState_t.noConfusion h
  · exact hs

/-- Witness of C14 amended: a collision reported in SEARCHING. -/
theorem collision_exits_within_cycle_witness :
    ∃ r, cycle true 0 { state := SEARCHING, prevState := IDLE } (constWorld 0 []) = some r ∧
      r.1.state ≠ COLLISION :=
  (collision_exits_within_cycle (fun _ => true) 0 { state := SEARCHING, prevState := IDLE }
    (constWorld 0 []) (by decide)).1

theorem cycle_searchPhase (collision : Bool) (fuel : Nat) (ctx : RobotContext_t)
    (w : World) (r : RobotContext_t × World) (hs : searchPhase ctx.state)
    (h : cycle collision fuel ctx w = some r) : searchPhase r.1.state := by
  unfold searchPhase at hs ⊢
  rcases cycle_state collision fuel ctx w r h with ⟨h1, _⟩ | ⟨_, _, h2⟩ | ⟨_, h3⟩
  · rw [h1] at hs
    simp at hs
  · rw [h2]
    rcases hs with e | e | e <;> simp [e]
  · rcases h3 with ⟨_, e⟩ | ⟨_, e⟩ | ⟨_, e | e⟩ | ⟨e1, _⟩ | ⟨e1, _⟩
    · simp [e]
    · simp [e]
    · simp [e]
    · simp [e]
    · rw [e1] at hs
      simp at hs
    · rw [e1] at hs
      simp at hs

theorem cycle_stays_out_of_idle (collision : Bool) (fuel : Nat) (ctx : RobotContext_t)
    (w : World) (r : RobotContext_t × World)
    (hs : ctx.state = SEARCHING ∨ ctx.state = ALIGNMENT)
    (h : cycle collision fuel ctx w = some r) :
    r.1.state = SEARCHING ∨ r.1.state = ALIGNMENT := by
  rcases cycle_state collision fuel ctx w r h with ⟨h1, _⟩ | ⟨_, _, h2⟩ | ⟨_, h3⟩
  · rw [h1] at hs
    simp at hs
  · rw [h2]
    rcases hs with e | e <;> simp [e]
  · rcases h3 with ⟨e1, _⟩ | ⟨_, e⟩ | ⟨_, e | e⟩ | ⟨e1, _⟩ | ⟨e1, _⟩
    · rw [e1] at hs
      simp at hs
    · simp [e]
    · simp [e]
    · simp [e]
    · rw [e1] at hs
      simp at hs
    · rw [e1] at hs
      simp at hs

theorem runCycles_searchPhase (monitor : Nat → Bool) (fuel : Nat) (ctx : RobotContext_t)
    (w : World) (hs : searchPhase ctx.state) :
    ∀ (n : Nat) (r : RobotContext_t × World),
      runCycles monitor fuel n ctx w = some r → searchPhase r.1.state := by
  intro n
  induction n with
  | zero =>
    intro r h
    simp only [runCycles, Option.some.injEq] at h
    rw [← h]
    exact hs
  | succ n ih =>
    intro r h
    obtain ⟨rn, hrn, hcy⟩ := runCycles_succ monitor fuel n ctx w r h
    exact cycle_searchPhase _ fuel rn.1 rn.2 r (ih rn hrn) hcy

theorem runCycles_idle_left (monitor : Nat → Bool) (fuel : Nat) (ctx : RobotContext_t)
    (w : World) (hs : searchPhase ctx.state) :
    ∀ (n : Nat) (r : RobotContext_t × World), runCycles monitor fuel n ctx w = some r →
      ∀ (m : Nat) (r' : RobotContext_t × World), m ≤ n →
        runCycles monitor fuel m ctx w = some r' → r'.1.state ≠ IDLE → r.1.state ≠ IDLE := by
  intro n
  induction n with
  | zero =>
    intro r h m r' hm h' hne
    obtain rfl : m = 0 := by omega
    rw [h] at h'
    cases h'
    exact hne
  | succ n ih =>
    intro r h m r' hm h' hne
    by_cases hmn : m = n + 1
    · subst hmn
      rw [h] at h'
      cases h'
      exact hne
    · obtain ⟨rn, hrn, hcy⟩ := runCycles_succ monitor fuel n ctx w r h
      have h1 : rn.1.state ≠ IDLE := ih rn hrn m r' (by omega) h' hne
      have h2 : searchPhase rn.1.state := runCycles_searchPhase monitor fuel ctx w hs n rn hrn
      have h3 : rn.1.state = SEARCHING ∨ rn.1.state = ALIGNMENT := by
        unfold searchPhase at h2
        rcases h2 with e | e | e
        · exact absurd e h1
        · exact Or.inl e
        · exact Or.inr e
      rcases cycle_stays_out_of_idle _ fuel rn.1 rn.2 r h3 hcy with e | e <;> simp [e]

/-- C15: in every run of the controller from the context `core` builds
(`state = prevState = IDLE`), whatever the monitor reports, the sensors read
and the input holds, at the end of every cycle that returns `state` is not
COLLISION and `prevState` is not COLLISION: no handler leaves COLLISION as
the state, which is held only inside a cycle, between the override and the
return of `handleCollision`. `core` itself is such a run, with the monitor of
the source. -/
theorem core_run_never_rests_in_collision (monitor : Nat → Bool) (fuel n : Nat) (w : World)
    (r : RobotContext_t × World) (h : runCycles monitor fuel n coreContext w = some r) :
    r.1.state ≠ COLLISION ∧ r.1.prevState ≠ COLLISION ∧
    core fuel n w = runCycles (fun _ => checkForCollisions) fuel n coreContext w := by
  have hinit : coreContext.state ≠ COLLISION := by decide
  refine ⟨runCycles_not_collision monitor fuel coreContext w hinit n r h, ?_, rfl⟩
  cases n with
  | zero =>
    simp only [runCycles, Option.some.injEq] at h
    rw [← h]
    show (IDLE : RobotState_t) ≠ COLLISION
    decide
  | succ n =>
    obtain ⟨rn, hrn, hcy⟩ := runCycles_succ monitor fuel n coreContext w r h
    rw [cycle_prevState _ fuel rn.1 rn.2 r hcy]
    exact runCycles_not_collision monitor fuel coreContext w hinit n rn hrn

/-- Witness of C15: three cycles from the context of `core`, the start token
being the first character of the input and a collision being reported in the
second cycle. -/
theorem core_run_never_rests_in_collision_witness :
    ∃ r, runCycles (fun i => decide (i = 1)) 1 3 coreContext (constWorld 800 ['n']) = some r ∧
      r.1.state ≠ COLLISION ∧ r.1.prevState ≠ COLLISION :=
  ⟨_, rfl,
    (core_run_never_rests_in_collision (fun i => decide (i = 1)) 1 3 (constWorld 800 ['n'])
      _ rfl).1,
    (core_run_never_rests_in_collision (fun i => decide (i = 1)) 1 3 (constWorld 800 ['n'])
      _ rfl).2.1⟩

/-- C18: drop and completion are unreachable. In every run of the controller
from the context `core` builds, for every sequence of monitor results, sensor
readings and input, the state at the end of every cycle that returns is IDLE,
SEARCHING or ALIGNMENT, hence neither DROP_OBJECT nor COMPLETE; the state the
next cycle dispatches on is neither DROP_OBJECT nor COMPLETE, so `handleDrop`
and `handleComplete` are never dispatched; and if the state was not IDLE at
the end of an earlier cycle of the run it is not IDLE now. -/
theorem core_run_stays_in_search_phase (monitor : Nat → Bool) (fuel n : Nat) (w : World)
    (r : RobotContext_t × World) (h : runCycles monitor fuel n coreContext w = some r) :
    searchPhase r.1.state ∧
    (r.1.state ≠ DROP_OBJECT ∧ r.1.state ≠ COMPLETE) ∧
    (∀ c : Bool, (collisionOverride c r.1).state ≠ DROP_OBJECT ∧
      (collisionOverride c r.1).state ≠ COMPLETE) ∧
    (∀ (m : Nat) (r' : RobotContext_t × World), m ≤ n →
      runCycles monitor fuel m coreContext w = some r' → r'.1.state ≠ IDLE →
      r.1.state ≠ IDLE) := by
  have hinit : searchPhase coreContext.state := by decide
  have hp : searchPhase r.1.state := runCycles_searchPhase monitor fuel coreContext w hinit n r h
  have hne : r.1.state ≠ DROP_OBJECT ∧ r.1.state ≠ COMPLETE := by
    unfold searchPhase at hp
    rcases hp with e | e | e <;> simp [e]
  refine ⟨hp, hne, ?_, runCycles_idle_left monitor fuel coreContext w hinit n r h⟩
  intro c
  unfold collisionOverride
  simp only
  split
  · exact ⟨fun e => RobotState_t.noConfusion e, fun e => RobotState_t.noConfusion e⟩
  · exact hne

/-- Witness of C18: four cycles from the context of `core` on the input `x`,
`n`, with a collision reported in the third cycle; the state has left IDLE
after the first cycle. -/
theorem core_run_stays_in_search_phase_witness :
    ∃ r, runCycles (fun i => decide (i = 2)) 2 4 coreContext (constWorld 100 ['x', 'n'])
        = some r ∧
      searchPhase r.1.state ∧ r.1.state ≠ DROP_OBJECT ∧ r.1.state ≠ COMPLETE ∧
      r.1.state ≠ IDLE :=
  ⟨_, rfl,
    (core_run_stays_in_search_phase (fun i => decide (i = 2)) 2 4
      (constWorld 100 ['x', 'n']) _ rfl).1,
    (core_run_stays_in_search_phase (fun i => decide (i = 2)) 2 4
      (constWorld 100 ['x', 'n']) _ rfl).2.1.1,
    (core_run_stays_in_search_phase (fun i => decide (i = 2)) 2 4
      (constWorld 100 ['x', 'n']) _ rfl).2.1.2,
    (core_run_stays_in_search_phase (fun i => decide (i = 2)) 2 4
      (constWorld 100 ['x', 'n']) _ rfl).2.2.2 1 _ (by decide) rfl (by decide)⟩

/-! ## Shape of the actuation commands -/

/-- C16, refuted as stated: the shape fails at the ends of the `int` range.
`turnRight` at power `INT_MIN` sends `INT_MIN` to both motors, not the pair
`(INT_MIN, 2147483648)`, since the negation is computed in `int`; and the wait
is not one of `t` ms for a negative or a large duration: for `t = -1` the
call is `usleep(4294966296)`, for `t = 5000000` it is `usleep(705032704)`. -/
theorem actuation_shape_fails_at_int_limits :
    motorCommands (turnRight (-2147483648) 0 (constWorld 0 [])).2.trace
      = [(1, -2147483648), (2, -2147483648), (1, 0), (2, 0)] ∧
    motorCommands (turnRight (-2147483648) 0 (constWorld 0 [])).2.trace
      ≠ [(1, -2147483648), (2, -(-2147483648)), (1, 0), (2, 0)] ∧
    (driveStraight 50 (-1) (constWorld 0 [])).2.trace
      = [Event.motor 1 50, Event.motor 2 50, Event.sleep 4294966296,
         Event.motor 1 0, Event.motor 2 0] ∧
    (driveStraight 50 (-1) (constWorld 0 [])).2.trace
      ≠ [Event.motor 1 50, Event.motor 2 50, Event.sleep (-1 * 1000),
         Event.motor 1 0, Event.motor 2 0] ∧
    (driveStraight 50 5000000 (constWorld 0 [])).2.trace
      = [Event.motor 1 50, Event.motor 2 50, Event.sleep 705032704,
         Event.motor 1 0, Event.motor 2 0] ∧
    (driveStraight 50 5000000 (constWorld 0 [])).2.trace
      ≠ [Event.motor 1 50, Event.motor 2 50, Event.sleep (5000000 * 1000),
         Event.motor 1 0, Event.motor 2 0] := by
  decide

/-- C16, amended: the commands of the actuation primitives. For every power
`p` and duration `t`, `driveStraight p t` sends the motor commands `(p, p)`
then `(0, 0)`. For every `p` that is an `int` other than `INT_MIN`,
`turnRight p t` sends `(p, -p)` then `(0, 0)` and `turnLeft p t` sends
`(-p, p)` then `(0, 0)`, and `turnLeft p t` is the same command as
`turnRight (-p) t`. Each pair goes to motor 1 before motor 2 and no other motor
command is sent. For every `t` with `0 ≤ 1000 * t ≤ INT_MAX` the wait of `t`
ms (`usleep(1000 * t)`) lies between the two pairs and the world changes in
nothing else. -/
theorem actuation_command_shape (powerLevel time : Int) (w : World) :
    motorCommands (driveStraight powerLevel time w).2.trace
      = motorCommands w.trace ++ [(1, powerLevel), (2, powerLevel), (1, 0), (2, 0)] ∧
    (-2147483648 < powerLevel → powerLevel ≤ 2147483647 →
      motorCommands (turnRight powerLevel time w).2.trace
        = motorCommands w.trace ++ [(1, powerLevel), (2, -powerLevel), (1, 0), (2, 0)] ∧
      motorCommands (turnLeft powerLevel time w).2.trace
        = motorCommands w.trace ++ [(1, -powerLevel), (2, powerLevel), (1, 0), (2, 0)] ∧
      turnLeft powerLevel time w = turnRight (-powerLevel) time w) ∧
    (0 ≤ time * 1000 → time * 1000 ≤ 2147483647 →
      driveStraight powerLevel time w
        = ((), { w with
            trace := w.trace ++
              [Event.motor 1 powerLevel, Event.motor 2 powerLevel, Event.sleep (time * 1000),
               Event.motor 1 0, Event.motor 2 0] }) ∧
      (-2147483648 < powerLevel → powerLevel ≤ 2147483647 →
        turnRight powerLevel time w
          = ((), { w with
              trace := w.trace ++
                [Event.motor 1 powerLevel, Event.motor 2 (-powerLevel),
                 Event.sleep (time * 1000), Event.motor 1 0, Event.motor 2 0] }) ∧
        turnLeft powerLevel time w
          = ((), { w with
              trace := w.trace ++
                [Event.motor 1 (-powerLevel), Event.motor 2 powerLevel,
                 Event.sleep (time * 1000), Event.motor 1 0, Event.motor 2 0] }))) := by
  have hd := driveStraight_run powerLevel time w
  have hr := turnRight_run powerLevel time w
  have hl := turnLeft_run powerLevel time w
  have hr2 := turnRight_run (-powerLevel) time w
  refine ⟨?_, ?_, ?_⟩
  · rw [hd]
    simp [motorCommands_append, motorCommands]
  · intro hpmin hpmax
    have hneg : wrapInt (-powerLevel) = -powerLevel :=
      wrapInt_of_range _ (by omega) (by omega)
    have hback : wrapInt (- -powerLevel) = powerLevel := by
      rw [neg_neg]
      exact wrapInt_of_range _ (by omega) hpmax
    rw [hneg] at hr hl
    rw [hback] at hr2
    refine ⟨?_, ?_, ?_⟩
    · rw [hr]
      simp [motorCommands_append, motorCommands]
    · rw [hl]
      simp [motorCommands_append, motorCommands]
    · rw [hl, hr2]
  · intro htmin htmax
    have hwait : toUseconds (wrapInt (time * 1000)) = time * 1000 := by
      rw [wrapInt_of_range _ (by omega) htmax]
      exact toUseconds_of_nonneg _ htmin htmax
    rw [hwait] at hd hr hl
    refine ⟨hd, ?_⟩
    intro hpmin hpmax
    have hneg : wrapInt (-powerLevel) = -powerLevel :=
      wrapInt_of_range _ (by omega) (by omega)
    rw [hneg] at hr hl
    exact ⟨hr, hl⟩

/-- Witness of C16 amended: power 30 for 1000 ms. -/
theorem actuation_command_shape_witness :
    (motorCommands (turnRight 30 1000 (constWorld 0 [])).2.trace
        = motorCommands (constWorld 0 []).trace ++ [(1, 30), (2, -30), (1, 0), (2, 0)] ∧
      motorCommands (turnLeft 30 1000 (constWorld 0 [])).2.trace
        = motorCommands (constWorld 0 []).trace ++ [(1, -30), (2, 30), (1, 0), (2, 0)] ∧
      turnLeft 30 1000 (constWorld 0 []) = turnRight (-30) 1000 (constWorld 0 [])) ∧
    (turnRight 30 1000 (constWorld 0 [])
        = ((), { constWorld 0 [] with
            trace := (constWorld 0 []).trace ++
              [Event.motor 1 30, Event.motor 2 (-30), Event.sleep (1000 * 1000),
               Event.motor 1 0, Event.motor 2 0] }) ∧
      turnLeft 30 1000 (constWorld 0 [])
        = ((), { constWorld 0 [] with
            trace := (constWorld 0 []).trace ++
              [Event.motor 1 (-30), Event.motor 2 30, Event.sleep (1000 * 1000),
               Event.motor 1 0, Event.motor 2 0] })) :=
  ⟨(actuation_command_shape 30 1000 (constWorld 0 [])).2.1 (by decide) (by decide),
   ((actuation_command_shape 30 1000 (constWorld 0 [])).2.2 (by decide) (by decide)).2
     (by decide) (by decide)⟩

theorem handleSearching_world (ctx : RobotContext_t) (w : World) :
    (handleSearching ctx w).2
      = (searchMove
          (irCorrection (sensorValue (w.randSeq (w.randPos + 2)))
            (sensorValue (w.randSeq (w.randPos + 1))))
          { w with
            randPos := w.randPos + 3
            trace := w.trace ++
              [Event.sensor "Sonic Distance Sensor" (sensorValue (w.randSeq w.randPos)),
               Event.sensor "Photo Transistor Right" (sensorValue (w.randSeq (w.randPos + 1))),
               Event.sensor "Photo Transistor Left"
                 (sensorValue (w.randSeq (w.randPos + 2)))] }).2 := by
  rw [handleSearching_run]
  simp only [readForwardDistance, readSensor_run, readIrDirection_run]
  simp [Nat.add_assoc]

theorem searchMove_commands (move : RobotCorrection_t) (w : World) :
    motorCommands (searchMove move w).2.trace
      = motorCommands w.trace ++ searchCommands move := by
  cases move
  · simp only [searchMove, driveStraight_run, motorCommands_append]
    simp [motorCommands, searchCommands, POWER_LEVEL_MED]
  · simp only [searchMove, turnRight_run, motorCommands_append]
    simp [motorCommands, searchCommands, POWER_LEVEL_LOW, wrapInt]
  · simp only [searchMove, turnLeft_run, motorCommands_append]
    simp [motorCommands, searchCommands, POWER_LEVEL_LOW, wrapInt]

/-- C17: the actuation of `handleSearching`. Let `d` be the forward-range
reading and `right`, `left` the bearing readings it takes, in that order.
Exactly one actuation primitive runs, chosen by the decision on the bearing
readings: MOVE_STRAIGHT runs `driveStraight` at power 50 (wheels (50, 50)),
MOVE_RIGHT runs `turnRight` at power 30 (wheels (30, -30)), MOVE_LEFT runs
`turnLeft` at power 30 (wheels (-30, 30)), each for 1000 ms and followed by
the stop (0, 0); the trace gains the three sensor lines and these five events
only. The forward-range reading changes neither the motor commands nor the
resulting context: any world with the same earlier motor commands and the same
bearing readings gives the same ones. -/
theorem handleSearching_actuation (ctx : RobotContext_t) (w : World) (d right left : Int)
    (hd : (readForwardDistance w).1 = d)
    (hright : (readIrRight (readForwardDistance w).2).1 = right)
    (hleft : (readIrLeft (readIrRight (readForwardDistance w).2).2).1 = left) :
    (irCorrection left right = MOVE_STRAIGHT →
      (handleSearching ctx w).2.trace = w.trace ++
        [Event.sensor "Sonic Distance Sensor" d, Event.sensor "Photo Transistor Right" right,
         Event.sensor "Photo Transistor Left" left,
         Event.motor 1 50, Event.motor 2 50, Event.sleep 1000000,
         Event.motor 1 0, Event.motor 2 0]) ∧
    (irCorrection left right = MOVE_RIGHT →
      (handleSearching ctx w).2.trace = w.trace ++
        [Event.sensor "Sonic Distance Sensor" d, Event.sensor "Photo Transistor Right" right,
         Event.sensor "Photo Transistor Left" left,
         Event.motor 1 30, Event.motor 2 (-30), Event.sleep 1000000,
         Event.motor 1 0, Event.motor 2 0]) ∧
    (irCorrection left right = MOVE_LEFT →
      (handleSearching ctx w).2.trace = w.trace ++
        [Event.sensor "Sonic Distance Sensor" d, Event.sensor "Photo Transistor Right" right,
         Event.sensor "Photo Transistor Left" left,
         Event.motor 1 (-30), Event.motor 2 30, Event.sleep 1000000,
         Event.motor 1 0, Event.motor 2 0]) ∧
    motorCommands (handleSearching ctx w).2.trace
      = motorCommands w.trace ++ searchCommands (irCorrection left right) ∧
    (∀ w2 : World, motorCommands w2.trace = motorCommands w.trace →
      (readIrRight (readForwardDistance w2).2).1 = right →
      (readIrLeft (readIrRight (readForwardDistance w2).2).2).1 = left →
      motorCommands (handleSearching ctx w2).2.trace
        = motorCommands (handleSearching ctx w).2.trace ∧
      (handleSearching ctx w2).1 = (handleSearching ctx w).1) := by
  have hd0 : sensorValue (w.randSeq w.randPos) = d := hd
  have hr0 : sensorValue (w.randSeq (w.randPos + 1)) = right := hright
  have hl0 : sensorValue (w.randSeq (w.randPos + 2)) = left := hleft
  have hw := handleSearching_world ctx w
  rw [hd0, hr0, hl0] at hw
  have hcmd : ∀ w2 : World,
      (readIrRight (readForwardDistance w2).2).1 = right →
      (readIrLeft (readIrRight (readForwardDistance w2).2).2).1 = left →
      motorCommands (handleSearching ctx w2).2.trace
        = motorCommands w2.trace ++ searchCommands (irCorrection left right) := by
    intro w2 h1 h2
    have h1r : sensorValue (w2.randSeq (w2.randPos + 1)) = right := h1
    have h2l : sensorValue (w2.randSeq (w2.randPos + 2)) = left := h2
    rw [handleSearching_world, searchMove_commands, h1r, h2l]
    simp [motorCommands_append, motorCommands]
  refine ⟨?_, ?_, ?_, hcmd w hright hleft, ?_⟩
  · intro hm
    rw [hw, hm]
    simp [searchMove, driveStraight_run, POWER_LEVEL_MED, MOVE_TIME_SEARCH, wrapInt,
      toUseconds]
  · intro hm
    rw [hw, hm]
    simp [searchMove, turnRight_run, POWER_LEVEL_LOW, MOVE_TIME_SEARCH, wrapInt,
      toUseconds]
  · intro hm
    rw [hw, hm]
    simp [searchMove, turnLeft_run, POWER_LEVEL_LOW, MOVE_TIME_SEARCH, wrapInt,
      toUseconds]
  · intro w2 hm h1 h2
    refine ⟨?_, ?_⟩
    · rw [hcmd w2 h1 h2, hcmd w hright hleft, hm]
    · rw [handleSearching_run, handleSearching_run]

/-- Witness of C17: forward reading 300 with bearing readings right = 500,
left = 201 drives straight; right = 201, left = 500 (with a forward reading of
-500, below the clearance of 50) turns left; right = 100, left = 0 turns
right. -/
theorem handleSearching_actuation_witness :
    (handleSearching coreContext (seqWorld [800, 1000, 701] [])).2.trace
      = (seqWorld [800, 1000, 701] []).trace ++
        [Event.sensor "Sonic Distance Sensor" 300, Event.sensor "Photo Transistor Right" 500,
         Event.sensor "Photo Transistor Left" 201,
         Event.motor 1 50, Event.motor 2 50, Event.sleep 1000000,
         Event.motor 1 0, Event.motor 2 0] ∧
    (handleSearching coreContext (seqWorld [0, 701, 1000] [])).2.trace
      = (seqWorld [0, 701, 1000] []).trace ++
        [Event.sensor "Sonic Distance Sensor" (-500), Event.sensor "Photo Transistor Right" 201,
         Event.sensor "Photo Transistor Left" 500,
         Event.motor 1 (-30), Event.motor 2 30, Event.sleep 1000000,
         Event.motor 1 0, Event.motor 2 0] ∧
    (handleSearching coreContext (seqWorld [800, 600, 500] [])).2.trace
      = (seqWorld [800, 600, 500] []).trace ++
        [Event.sensor "Sonic Distance Sensor" 300, Event.sensor "Photo Transistor Right" 100,
         Event.sensor "Photo Transistor Left" 0,
         Event.motor 1 30, Event.motor 2 (-30), Event.sleep 1000000,
         Event.motor 1 0, Event.motor 2 0] :=
  ⟨(handleSearching_actuation coreContext (seqWorld [800, 1000, 701] []) 300 500 201
      (by decide) (by decide) (by decide)).1 (by decide),
   (handleSearching_actuation coreContext (seqWorld [0, 701, 1000] []) (-500) 201 500
      (by decide) (by decide) (by decide)).2.2.1 (by decide),
   (handleSearching_actuation coreContext (seqWorld [800, 600, 500] []) 300 100 0
      (by decide) (by decide) (by decide)).2.1 (by decide)⟩

/-! ## Sensor range -/

/-- C19: the sensor bound. For every raw value `r ≥ 0` of `rand()` and every
`upper ≥ lower`, the value `r % (upper + 1 - lower) + lower` computed by
`randomIntInRange` (the remainder of C, which here is also the mathematical
one) lies in `[lower, upper]`, and so does what `randomIntInRange` returns in
every world; in particular every value returned by `readSensor`, computed as
`randomIntInRange(500, -500)`, lies in `[-500, 500]`. -/
theorem randomIntInRange_bounds (r upper lower : Int) (hr : 0 ≤ r) (h : lower ≤ upper) :
    randomIntInRangeOf r upper lower = r % (upper + 1 - lower) + lower ∧
    lower ≤ randomIntInRangeOf r upper lower ∧
    randomIntInRangeOf r upper lower ≤ upper ∧
    (∀ w : World,
      (randomIntInRange upper lower w).1
        = randomIntInRangeOf (w.randSeq w.randPos) upper lower ∧
      lower ≤ (randomIntInRange upper lower w).1 ∧
      (randomIntInRange upper lower w).1 ≤ upper) ∧
    (∀ (sensorName : String) (w : World),
      -500 ≤ (readSensor sensorName w).1 ∧ (readSensor sensorName w).1 ≤ 500) := by
  have hpos : 0 < upper + 1 - lower := by omega
  have bound : ∀ x : Int, 0 ≤ x → ∀ u l : Int, l ≤ u →
      l ≤ randomIntInRangeOf x u l ∧ randomIntInRangeOf x u l ≤ u := by
    intro x hx u l hul
    have h1 : 0 ≤ Int.tmod x (u + 1 - l) := Int.tmod_nonneg _ hx
    have h2 : Int.tmod x (u + 1 - l) < u + 1 - l := Int.tmod_lt_of_pos _ (by omega)
    unfold randomIntInRangeOf
    constructor <;> omega
  refine ⟨?_, (bound r hr upper lower h).1, (bound r hr upper lower h).2, ?_, ?_⟩
  · unfold randomIntInRangeOf
    rw [Int.tmod_eq_emod hr (le_of_lt hpos)]
  · intro w
    have hv : (randomIntInRange upper lower w).1
        = randomIntInRangeOf (w.randSeq w.randPos) upper lower := rfl
    rw [hv]
    exact ⟨rfl, bound _ (Int.ofNat_nonneg _) upper lower h⟩
  · intro sensorName w
    have hv : (readSensor sensorName w).1
        = randomIntInRangeOf (w.randSeq w.randPos) 500 (-500) := rfl
    rw [hv]
    exact bound _ (Int.ofNat_nonneg _) 500 (-500) (by decide)

/-- Witness of C19: the raw value 1234 taken into `[-500, 500]` is -267. -/
theorem randomIntInRange_bounds_witness :
    randomIntInRangeOf 1234 500 (-500) = 1234 % (500 + 1 - (-500)) + (-500) ∧
    -500 ≤ randomIntInRangeOf 1234 500 (-500) ∧ randomIntInRangeOf 1234 500 (-500) ≤ 500 :=
  ⟨(randomIntInRange_bounds 1234 500 (-500) (by decide) (by decide)).1,
   (randomIntInRange_bounds 1234 500 (-500) (by decide) (by decide)).2.1,
   (randomIntInRange_bounds 1234 500 (-500) (by decide) (by decide)).2.2.1⟩

end Americano
